import Mathlib

/-!
# Verification of the Pennsylvania commute data-story front end

A shallow embedding, in Lean 4, of the script logic of the scroll-driven
data-story site: the derived-metric calculators of Chapter1 and Chapter6,
the scroll/navigation controller of the main page, the chart-render guards
and full-replace behaviour of Chapter2 and Chapter3, the per-chapter
fetch-failure handling, and the reactive summary figures of Chapter2.

Numbers that the source manipulates as JavaScript floats are embedded as
rationals.  Every division appearing in the embedded formulas is by a
nonzero literal constant (60, 25, 1000, 10000, ...), so the rational
embedding is exact and every derived figure is a well-defined (finite)
rational.  Where a reactive branch tests a denominator before dividing
(Chapter2, top10Percentage) the branch is embedded as written.
-/

namespace Commute

/-! ## Chapter1: baseline stats and the personal calculator -/

/-- The `PA_STATS` record of Chapter1.svelte: baseline Pennsylvania
commute statistics, loaded from JSON or set from fallback constants. -/
structure PAStats where
  totalCommuters : ℚ
  avgCommuteMinutes : ℚ
  annualHoursLost : ℚ
  annualCO2Tons : ℚ
  carsEquivalent : ℚ
  avgCO2PerPerson : ℚ
deriving Repr, DecidableEq

/-- The record assigned to `PA_STATS` in the `catch` branch of the `onMount` of Chapter1 (Chapter1.svelte, lines 59 to 66): the hardcoded fallback used
when the JSON fetch fails.  9.9 and 0.35 are embedded as exact rationals. -/
def fallbackPA_STATS : PAStats :=
  { totalCommuters := 6179069
    avgCommuteMinutes := 99 / 10
    annualHoursLost := 509773192
    annualCO2Tons := 2166258
    carsEquivalent := 470000
    avgCO2PerPerson := 35 / 100 }

/-- Chapter1.svelte line 77: `userAnnualHours = (userCommuteMinutes * 2 * 5 * 50) / 60`. -/
def userAnnualHours (userCommuteMinutes : ℚ) : ℚ :=
  (userCommuteMinutes * 2 * 5 * 50) / 60

/-- Chapter1.svelte line 78:
`userAnnualCO2 = (userCommuteMinutes * 0.5 * 2 * 250 * 8.887 / 25) / 1000`.
0.5 and 8.887 are embedded as exact rationals. -/
def userAnnualCO2 (userCommuteMinutes : ℚ) : ℚ :=
  (userCommuteMinutes * (1 / 2) * 2 * 250 * (8887 / 1000) / 25) / 1000

/-! ## Chapter6: the scenario calculator -/

/-- The `CommuteMode` union type of Chapter6.svelte. -/
inductive CommuteMode where
  | drive_alone
  | transit
  | bike_walk
  | carpool
  | wfh
deriving Repr, DecidableEq

/-- The `EMISSIONS_PER_MODE` table of Chapter6.svelte (kg CO2 per commuter
per year for an average commute). -/
def EMISSIONS_PER_MODE : CommuteMode → ℚ
  | .drive_alone => 2580
  | .transit => 580
  | .bike_walk => 0
  | .carpool => 1290
  | .wfh => 0

/-- Chapter6.svelte: `COST_PER_MILE = 0.67` (dollars). -/
def COST_PER_MILE : ℚ := 67 / 100

/-- Chapter6.svelte: `AVG_SPEED_MPH = 30` (average commute speed). -/
def AVG_SPEED_MPH : ℚ := 30

/-- Chapter6.svelte line 28: `commuteDistance = (commuteMinutes / 60) * AVG_SPEED_MPH`
(miles one way). -/
def commuteDistance (commuteMinutes : ℚ) : ℚ :=
  (commuteMinutes / 60) * AVG_SPEED_MPH

/-- Chapter6.svelte line 29: `dailyMiles = commuteDistance * 2` (round trip). -/
def dailyMiles (commuteMinutes : ℚ) : ℚ :=
  commuteDistance commuteMinutes * 2

/-- Chapter6.svelte line 30: `annualMiles = dailyMiles * daysPerWeek * 50`
(50 weeks per year). -/
def annualMiles (commuteMinutes daysPerWeek : ℚ) : ℚ :=
  dailyMiles commuteMinutes * daysPerWeek * 50

/-- Chapter6.svelte line 31: `annualCost = annualMiles * COST_PER_MILE`. -/
def annualCost (commuteMinutes daysPerWeek : ℚ) : ℚ :=
  annualMiles commuteMinutes daysPerWeek * COST_PER_MILE

/-- Chapter6.svelte lines 34 to 39: `currentAnnualCO2` scales the base
emission by actual annual miles against a 10000-mile average and converts
kg to tons. -/
def currentAnnualCO2 (currentMode : CommuteMode) (commuteMinutes daysPerWeek : ℚ) : ℚ :=
  (EMISSIONS_PER_MODE currentMode * (annualMiles commuteMinutes daysPerWeek / 10000)) / 1000

/-- Chapter6.svelte line 57, the `hoursGained` field of `option2`:
`(commuteMinutes * 2 * 2 * 50) / 60` (2 remote days per week, round trip,
50 weeks). -/
def option2HoursGained (commuteMinutes : ℚ) : ℚ :=
  (commuteMinutes * 2 * 2 * 50) / 60

/-! ## Scroll/navigation controller (+page.svelte, navigation.ts) -/

/-- The bounding box of a bound chapter section element, as read by
`handleScroll` in +page.svelte: `elementTop = rect.top + window.scrollY`
and `rect.height`; the bottom of the interval is `elementTop + height`. -/
structure ChapterSection where
  elementTop : ℚ
  height : ℚ
deriving Repr, DecidableEq

/-- The half-open containment test of +page.svelte line 52:
`scrollPosition >= elementTop && scrollPosition < elementBottom`. -/
def containsMidpoint (s : ChapterSection) (pos : ℚ) : Prop :=
  s.elementTop ≤ pos ∧ pos < s.elementTop + s.height

instance (s : ChapterSection) (pos : ℚ) : Decidable (containsMidpoint s pos) :=
  inferInstanceAs (Decidable (_ ∧ _))

/-- The loop body of `handleScroll` (+page.svelte lines 45 to 57): walk the
chapter elements in order, skip unbound (`null`) ones, and on the first
element whose interval contains the midpoint set the chapter to its 1-based
index (`i + 1`) and break; if none matches, the chapter is left unchanged.
`i` is the 0-based index of the head of the remaining list. -/
def findChapter : List (Option ChapterSection) → ℚ → ℕ → ℕ → ℕ
  | [], _, _, current => current
  | some s :: rest, pos, i, current =>
      if containsMidpoint s pos then i + 1 else findChapter rest pos (i + 1) current
  | none :: rest, pos, i, current => findChapter rest pos (i + 1) current

/-- The mutable state of the main page controller: the `scrolling` flag, the
shared `currentChapter` store, and the accumulated list of
`scrollIntoView` requests issued so far (each recorded by the
0-based index of the target element) — the only DOM effect of `scrollToChapter`. -/
structure NavState where
  scrolling : Bool
  currentChapter : ℕ
  scrollRequests : List ℕ
deriving Repr, DecidableEq

/-- `handleScroll` (+page.svelte lines 40 to 58): if `scrolling` is set the
handler returns at once; otherwise it recomputes the chapter from the
viewport midpoint `window.scrollY + window.innerHeight / 2`. -/
def handleScroll (chapterElements : List (Option ChapterSection))
    (scrollY innerHeight : ℚ) (st : NavState) : NavState :=
  if st.scrolling then st
  else
    { st with
      currentChapter :=
        findChapter chapterElements (scrollY + innerHeight / 2) 0 st.currentChapter }

/-- `scrollToChapter` (+page.svelte lines 64 to 76): if the element at
`index` is bound, set `scrolling`, issue a smooth `scrollIntoView`, and
schedule a timeout that will clear `scrolling` after 1000 ms; if the
element is unbound (or the index is past the 6-element array, so the
JavaScript lookup yields `undefined`), do nothing at all. -/
def scrollToChapter (chapterElements : List (Option ChapterSection))
    (index : ℕ) (st : NavState) : NavState :=
  match chapterElements.getD index none with
  | some _ =>
      { st with scrolling := true, scrollRequests := st.scrollRequests ++ [index] }
  | none => st

/-- The body of the `setTimeout` callback of `scrollToChapter`: after the
fixed 1000 ms delay, clear the `scrolling` flag. -/
def scrollTimeoutElapsed (st : NavState) : NavState :=
  { st with scrolling := false }

/-- A burst of passive scroll events, each carrying the `window.scrollY` and
`window.innerHeight` it observes, applied in order through `handleScroll`. -/
def runScrollEvents (chapterElements : List (Option ChapterSection))
    (events : List (ℚ × ℚ)) (st : NavState) : NavState :=
  events.foldl (fun s e => handleScroll chapterElements e.1 e.2 s) st

/-- The `chapters` array of navigation.ts (lines 7 to 18): the menu entries,
each an id with title and subtitle.  There are ten of them, while the page
renders only six chapter sections. -/
def navChapters : List (ℕ × String × String) :=
  [ (1, "The Time Thief", "How Commutes Steal Your Life")
  , (2, "The Money Drain", "The True Cost of Getting to Work")
  , (3, "The Carbon Footprint", "Environmental Impact of Commuting")
  , (4, "Geography of Inequality", "Where You Live Matters")
  , (5, "Pennsylvania Counties Leading the Way", "Show What\x27s Working")
  , (6, "Your Pennsylvania Choice", "Personal Action Calculator")
  , (7, "Productivity Paradox", "The Hidden Economic Cost")
  , (8, "Remote Work Revolution", "A New Way Forward")
  , (9, "Cities That Got It Right", "Success Stories")
  , (10, "Your Choice, Your Impact", "Take Action Today") ]

/-! ## Chapter2: county data, reactive summary, and the scatter renderer -/

/-- The `CountyData` row type of Chapter2.svelte.  `total_workers` and
`mean_commute` are optional in the source and embedded as `Option`. -/
structure CountyData where
  county : String
  lat : ℚ
  lon : ℚ
  co2_tons : ℚ
  co2_per_capita : ℚ
  total_workers : Option ℚ := none
  mean_commute : Option ℚ := none
deriving Repr, DecidableEq

/-- The `viewMode` toggle of Chapter2.svelte. -/
inductive ViewMode where
  | total
  | per_capita
deriving Repr, DecidableEq

/-- The county list assigned in the `catch` branch of the `onMount` of Chapter2
(Chapter2.svelte, lines 132 to 136): three hardcoded counties. -/
def ch2FallbackCountyData : List CountyData :=
  [ { county := "Philadelphia", lat := 400094 / 10000, lon := -751333 / 10000
    , co2_tons := 2345000, co2_per_capita := 148 / 100 }
  , { county := "Allegheny", lat := 404406 / 10000, lon := -799959 / 10000
    , co2_tons := 1234000, co2_per_capita := 99 / 100 }
  , { county := "Montgomery", lat := 401688 / 10000, lon := -753560 / 10000
    , co2_tons := 987000, co2_per_capita := 115 / 100 } ]

/-- The summed `co2_tons` accumulator
`reduce((sum, c) => sum + c.co2_tons, 0)` used by both reactive sums in
Chapter2.svelte. -/
def co2Sum (countyData : List CountyData) : ℚ :=
  (countyData.map (·.co2_tons)).sum

/-- Chapter2.svelte line 51: `totalEmissions` is the full `co2_tons` sum
when the list is nonempty, else 0. -/
def totalEmissions (countyData : List CountyData) : ℚ :=
  if countyData.length > 0 then co2Sum countyData else 0

/-- Chapter2.svelte line 52: `top10Emissions` sums
`countyData.slice(0, Math.min(10, countyData.length))` when the list is
nonempty, else 0. -/
def top10Emissions (countyData : List CountyData) : ℚ :=
  if countyData.length > 0 then co2Sum (countyData.take (min 10 countyData.length)) else 0

/-- JavaScript `Number.prototype.toFixed(0)`: round to the nearest integer,
ties towards the larger integer. -/
def toFixed0 (q : ℚ) : String :=
  toString (⌊q + 1 / 2⌋)

/-- Chapter2.svelte line 53: `top10Percentage` formats
`top10Emissions / totalEmissions * 100` with `toFixed(0)` when
`totalEmissions > 0`, and is the literal string "0" otherwise. -/
def top10Percentage (countyData : List CountyData) : String :=
  if totalEmissions countyData > 0 then
    toFixed0 (top10Emissions countyData / totalEmissions countyData * 100)
  else "0"

/-! ## Chapter3: metro data and load state -/

/-- The `MetroData` row type of Chapter3.svelte. -/
structure MetroData where
  metro : String
  avg_commute : ℚ
  workers : ℚ
  co2_per_capita : ℚ
  transit_pct : ℚ
  median_income : ℚ
  commute_burden_score : ℚ
deriving Repr, DecidableEq

/-- The component state of Chapter3 relevant to data loading. -/
structure Ch3State where
  metroData : List MetroData
  dataLoaded : Bool
deriving Repr, DecidableEq

/-- The state Chapter3 is left in when its fetch throws (Chapter3.svelte,
lines 39 to 42): the `catch` branch only logs the error and sets
`dataLoaded = true`; `metroData` keeps its initial empty value and no
fallback constants are substituted. -/
def ch3AfterFailedFetch : Ch3State :=
  { metroData := [], dataLoaded := true }

/-- What the Chapter3 template shows (Chapter3.svelte, lines 293 to 302):
a loading notice before `dataLoaded`, an explicit could-not-load message
when `metroData` is empty after loading, and the chart content otherwise. -/
inductive Ch3View where
  | loading
  | loadErrorMessage
  | content
deriving Repr, DecidableEq

/-- The branch structure of the Chapter3 markup: the dataLoaded guard shows the
loading state, `{:else if metroData.length === 0}` shows the
could-not-load message, `{:else}` renders the chapter content. -/
def chapter3View (st : Ch3State) : Ch3View :=
  if st.dataLoaded = false then .loading
  else if st.metroData.length = 0 then .loadErrorMessage
  else .content

/-! ## Chart renderers (Chapter2 renderMap, Chapter3 renderChart)

Both renderers build one SVG scene by direct element construction and
install it with a full replace: Chapter3 first clears
`chartContainer.innerHTML` and then appends the new svg; Chapter2 builds
the svg and then runs `mapContainer.innerHTML = ""` followed by
`appendChild(svg)`.  Every attribute of the built scene is computed from
the data list together with `viewMode` (Chapter2) or `selectedMetro`
(Chapter3) and literal constants, so the scene is a deterministic function
of those inputs; a built scene is embedded as a node carrying exactly the
inputs the build reads, and `domNodeMarkCount` recovers the number of SVG
elements the build appends. -/

/-- The per-county Y-value accessor of renderMap: `c[valueKey]` with
`valueKey = viewMode === "total" ? "co2_tons" : "co2_per_capita"`. -/
def countyValue (viewMode : ViewMode) (c : CountyData) : ℚ :=
  match viewMode with
  | .total => c.co2_tons
  | .per_capita => c.co2_per_capita

/-- `Math.max(...values)` over the county values, as used for the top-emitter
annotation in renderMap (defined as 0 on the empty list, which renderMap
never reaches thanks to its guard). -/
def maxCountyValue (countyData : List CountyData) (viewMode : ViewMode) : ℚ :=
  match countyData with
  | [] => 0
  | c :: rest => rest.foldl (fun m x => max m (countyValue viewMode x)) (countyValue viewMode c)

/-- A child node of a chart container.  A scene node carries exactly the
component variables its build reads (everything else in the build is a
literal constant), so two builds from equal inputs yield equal scenes. -/
inductive DomNode where
  | mapSvg (countyData : List CountyData) (viewMode : ViewMode)
  | metroSvg (metroData : List MetroData) (selectedMetro : Option MetroData)
  | other (tag : String)
deriving Repr, DecidableEq

/-- The number of SVG elements the corresponding build appends to the scene.
For renderMap: plot-area rect, two axes, 7 x-ticks and 7 y-ticks each with
a label, two axis titles, then per county a circle and a name label plus a
leader line and a text for each county matching the maximum value.  For
renderChart (counted inside the group): two axes, 6 tick rows of three
elements, the title, two legend items of two elements, five elements per
metro, and the y-axis title. -/
def domNodeMarkCount : DomNode → ℕ
  | .mapSvg countyData viewMode =>
      33 + (countyData.map (fun c =>
        2 + (if countyValue viewMode c = maxCountyValue countyData viewMode then 2 else 0))).sum
  | .metroSvg metroData _ => 26 + 5 * metroData.length
  | .other _ => 1

/-- Total SVG mark count of the children of a container. -/
def containerMarkCount (content : List DomNode) : ℕ :=
  (content.map domNodeMarkCount).sum

/-- `renderMap` of Chapter2.svelte (lines 142 to 370): return untouched when
the container is unbound or the county list is empty (line 143), otherwise
replace the children of the container with the single freshly built scene
(lines 368 and 369).  The function is total: the skipped call throws
nothing and modifies nothing. -/
def renderMap (mapContainer : Option (List DomNode))
    (countyData : List CountyData) (viewMode : ViewMode) : Option (List DomNode) :=
  match mapContainer with
  | none => none
  | some content =>
      if countyData.length = 0 then some content
      else some [DomNode.mapSvg countyData viewMode]

/-- `renderChart` of Chapter3.svelte (lines 60 to 273): return untouched when
the container is unbound or the metro list is empty (line 61), otherwise
clear the container (line 64) and append the single freshly built scene
(line 271). -/
def renderChart (chartContainer : Option (List DomNode))
    (metroData : List MetroData) (selectedMetro : Option MetroData) : Option (List DomNode) :=
  match chartContainer with
  | none => none
  | some content =>
      if metroData.length = 0 then some content
      else some [DomNode.metroSvg metroData selectedMetro]

/-! ## Calculator input controls -/

/-- The `min`, `max` and `step` attributes of a numeric input control. -/
structure InputBounds where
  min : ℚ
  max : ℚ
  step : ℚ
deriving Repr, DecidableEq

/-- The commute-minutes range slider of Chapter1.svelte (lines 149 to 156):
`type="range" min="5" max="90" step="1"`. -/
def chapter1CommuteInput : InputBounds :=
  { min := 5, max := 90, step := 1 }

/-- The commute-minutes number input of Chapter6.svelte (lines 321 to 328):
`type="number" min="1" max="120" step="1"`. -/
def chapter6CommuteMinutesInput : InputBounds :=
  { min := 1, max := 120, step := 1 }

/-- The days-per-week number input of Chapter6.svelte (lines 344 to 351):
`type="number" min="1" max="7" step="1"`. -/
def chapter6DaysPerWeekInput : InputBounds :=
  { min := 1, max := 7, step := 1 }

/-- A value is within the bounds a control enforces through its `min` and
`max` attributes. -/
def inputAccepts (b : InputBounds) (v : ℚ) : Prop :=
  b.min ≤ v ∧ v ≤ b.max

instance (b : InputBounds) (v : ℚ) : Decidable (inputAccepts b v) :=
  inferInstanceAs (Decidable (_ ∧ _))

/-! ## Theorems -/

/-- C8: when the data fetch fails and the fallback constants are used
(totalCommuters = 6,179,069 and avgCommuteMinutes = 9.9), the
annual-hours-lost figure held in the Chapter1 state
(`PA_STATS.annualHoursLost`) equals exactly 509,773,192. -/
theorem fallback_annualHoursLost_exact :
    fallbackPA_STATS.totalCommuters = 6179069 ∧
    fallbackPA_STATS.avgCommuteMinutes = 99 / 10 ∧
    fallbackPA_STATS.annualHoursLost = 509773192 :=
  ⟨rfl, rfl, rfl⟩

/-- C7 counterexample: the claim that both calculators bound commute minutes
to the range 5 to 120 through their min/max attributes is false on the
code.  The Chapter1 slider has max 90, so it does not admit 120, and
the Chapter6 number input has min 1, so it admits 1, a value below 5. -/
theorem commute_inputs_not_bounded_5_120 :
    chapter1CommuteInput.max = 90 ∧
    chapter1CommuteInput.max ≠ 120 ∧
    ¬ inputAccepts chapter1CommuteInput 120 ∧
    chapter6CommuteMinutesInput.min = 1 ∧
    chapter6CommuteMinutesInput.min ≠ 5 ∧
    inputAccepts chapter6CommuteMinutesInput 1 ∧ (1 : ℚ) < 5 := by
  refine ⟨rfl, by norm_num [chapter1CommuteInput], ?_, rfl,
    by norm_num [chapter6CommuteMinutesInput], ?_, by norm_num⟩
  · intro h
    have := h.2
    norm_num [chapter1CommuteInput] at this
  · exact ⟨by norm_num [chapter6CommuteMinutesInput],
      by norm_num [chapter6CommuteMinutesInput]⟩

/-- C7 amended: the Chapter1 personal-calculator slider bounds commute minutes
to 5 to 90, while the Chapter6 scenario-calculator number input bounds them
to 1 to 120 (and its days-per-week input to 1 to 7); each control admits
exactly the values within its own min/max attributes. -/
theorem commute_input_bounds_per_chapter :
    chapter1CommuteInput = { min := 5, max := 90, step := 1 } ∧
    chapter6CommuteMinutesInput = { min := 1, max := 120, step := 1 } ∧
    chapter6DaysPerWeekInput = { min := 1, max := 7, step := 1 } ∧
    (∀ v : ℚ, inputAccepts chapter1CommuteInput v ↔ 5 ≤ v ∧ v ≤ 90) ∧
    (∀ v : ℚ, inputAccepts chapter6CommuteMinutesInput v ↔ 1 ≤ v ∧ v ≤ 120) ∧
    (∀ v : ℚ, inputAccepts chapter6DaysPerWeekInput v ↔ 1 ≤ v ∧ v ≤ 7) := by
  refine ⟨rfl, rfl, rfl, fun v => ?_, fun v => ?_, fun v => ?_⟩ <;>
    simp [inputAccepts, chapter1CommuteInput, chapter6CommuteMinutesInput,
      chapter6DaysPerWeekInput]

/-- C5: a chart render call with an unbound container or an empty record
list returns without modifying the container (and, being a total
function, without any failure): renderMap and renderChart leave the
container exactly as it was in both degenerate cases. -/
theorem render_skipped_silently :
    (∀ (countyData : List CountyData) (vm : ViewMode),
      renderMap none countyData vm = none) ∧
    (∀ (content : List DomNode) (vm : ViewMode),
      renderMap (some content) [] vm = some content) ∧
    (∀ (metroData : List MetroData) (sel : Option MetroData),
      renderChart none metroData sel = none) ∧
    (∀ (content : List DomNode) (sel : Option MetroData),
      renderChart (some content) [] sel = some content) := by
  refine ⟨fun _ _ => rfl, fun content vm => ?_, fun _ _ => rfl, fun content sel => ?_⟩ <;>
    simp [renderMap, renderChart]

/-- C6: each render call fully replaces the container content with one
freshly built scene, so rendering twice equals rendering once
(idempotence), and on a bound container with a nonempty record list the
result is independent of whatever content was there before — no
duplicate or stale marks can accumulate. -/
theorem render_full_replace :
    (∀ (c : Option (List DomNode)) (data : List CountyData) (vm : ViewMode),
      renderMap (renderMap c data vm) data vm = renderMap c data vm) ∧
    (∀ (c c' : List DomNode) (data : List CountyData) (vm : ViewMode), data ≠ [] →
      renderMap (some c) data vm = renderMap (some c') data vm) ∧
    (∀ (c : Option (List DomNode)) (data : List MetroData) (sel : Option MetroData),
      renderChart (renderChart c data sel) data sel = renderChart c data sel) ∧
    (∀ (c c' : List DomNode) (data : List MetroData) (sel : Option MetroData), data ≠ [] →
      renderChart (some c) data sel = renderChart (some c') data sel) := by
  refine ⟨fun c data vm => ?_, fun c c' data vm h => ?_,
    fun c data sel => ?_, fun c c' data sel h => ?_⟩
  · cases c with
    | none => rfl
    | some content =>
        by_cases hd : data.length = 0 <;> simp [renderMap, hd]
  · have hd : ¬ data.length = 0 := by simpa using h
    simp [renderMap, hd]
  · cases c with
    | none => rfl
    | some content =>
        by_cases hd : data.length = 0 <;> simp [renderChart, hd]
  · have hd : ¬ data.length = 0 := by simpa using h
    simp [renderChart, hd]

/-- Witness for C6 at a concrete input: rendering the Chapter2 fallback
county list twice over a container that previously held a stale scene
gives the same content as rendering once over a fresh container. -/
theorem render_full_replace_witness :
    renderMap (some [DomNode.other "staleSvg"]) ch2FallbackCountyData ViewMode.total =
      renderMap (some []) ch2FallbackCountyData ViewMode.total :=
  render_full_replace.2.1 [DomNode.other "staleSvg"] [] ch2FallbackCountyData
    ViewMode.total (by simp [ch2FallbackCountyData])

/-- C4 counterexample: it is not true that every chapter replaces a failed
fetch with hardcoded fallback data and still renders its content.  In
Chapter3 the catch branch substitutes nothing, so after a failed fetch
the metro list is empty and the page shows the explicit could-not-load
message instead of the chapter content. -/
theorem chapter3_failed_fetch_shows_error :
    ch3AfterFailedFetch.metroData = [] ∧
    chapter3View ch3AfterFailedFetch = Ch3View.loadErrorMessage ∧
    Ch3View.loadErrorMessage ≠ Ch3View.content :=
  ⟨rfl, rfl, by simp⟩

/-- C4 amended: Chapter1 and Chapter2 catch a failed fetch, log it, and
substitute hardcoded fallback data, so those chapters render content
(Chapter1 with populated baseline stats, Chapter2 with a nonempty county
list whose chart renders); but Chapter3 catches and logs without
substituting data, leaving its metro list empty, so the page shows a
could-not-load message there rather than the chapter content. -/
theorem fetch_failure_policy_per_chapter :
    (fallbackPA_STATS.totalCommuters ≠ 0 ∧ fallbackPA_STATS.avgCommuteMinutes ≠ 0) ∧
    ch2FallbackCountyData ≠ [] ∧
    (∀ (vm : ViewMode) (content : List DomNode),
      renderMap (some content) ch2FallbackCountyData vm =
        some [DomNode.mapSvg ch2FallbackCountyData vm]) ∧
    chapter3View ch3AfterFailedFetch = Ch3View.loadErrorMessage := by
  refine ⟨⟨?_, ?_⟩, ?_, fun vm content => ?_, rfl⟩
  · norm_num [fallbackPA_STATS]
  · norm_num [fallbackPA_STATS]
  · simp [ch2FallbackCountyData]
  · simp [renderMap, ch2FallbackCountyData]

/-- C10: the reactive summary `top10Percentage` of Chapter2 is always the
decimal string of an integer — never NaN or a division blow-up: it is
the literal "0" on the empty list and whenever the total emissions sum is
zero, and the top-10 sum reads only the first `min(10, length)` records
(equivalently the first 10), so it never reaches past the end. -/
theorem top10Percentage_total_and_safe :
    top10Percentage [] = "0" ∧
    (∀ countyData : List CountyData,
      totalEmissions countyData = 0 → top10Percentage countyData = "0") ∧
    (∀ countyData : List CountyData,
      top10Emissions countyData = co2Sum (countyData.take 10)) ∧
    (∀ countyData : List CountyData, ∃ n : ℤ, top10Percentage countyData = toString n) := by
  refine ⟨rfl, fun l h => ?_, fun l => ?_, fun l => ?_⟩
  · rw [top10Percentage, if_neg]
    rw [h]
    exact lt_irrefl 0
  · cases l with
    | nil => rfl
    | cons c rest =>
        rw [top10Emissions, if_pos (by simp)]
        congr 1
        exact List.take_eq_take.mpr (by omega)
  · by_cases h : totalEmissions l > 0
    · exact ⟨⌊top10Emissions l / totalEmissions l * 100 + 1 / 2⌋,
        by rw [top10Percentage, if_pos h, toFixed0]⟩
    · exact ⟨0, by rw [top10Percentage, if_neg h]; rfl⟩

/-- Witness for C10 at a concrete input: a one-county list whose emissions
total is zero yields the literal string "0". -/
theorem top10Percentage_witness :
    top10Percentage
      [{ county := "Cameron", lat := 0, lon := 0, co2_tons := 0, co2_per_capita := 0 }] = "0" :=
  top10Percentage_total_and_safe.2.1 _ (by norm_num [totalEmissions, co2Sum])

/-- C1: for every commute-minutes input in [5,120], every days-per-week in
[1,7] and every commute mode, the derived annual-hours figures
(userAnnualHours in Chapter1, the option2 hoursGained figure in Chapter6)
and the derived annual-CO2 figures (userAnnualCO2 in Chapter1,
currentAnnualCO2 in Chapter6) are non-negative; finiteness is witnessed
by explicit upper bounds attained at the extreme inputs (all divisions in
the formulas are by nonzero literal constants, so every figure is a
well-defined rational). -/
theorem calculators_nonneg_and_finite
    (m d : ℚ) (mode : CommuteMode)
    (hm1 : 5 ≤ m) (hm2 : m ≤ 120) (hd1 : 1 ≤ d) (hd2 : d ≤ 7) :
    (0 ≤ userAnnualHours m ∧ userAnnualHours m ≤ 1000) ∧
    (0 ≤ userAnnualCO2 m ∧ userAnnualCO2 m ≤ 106644 / 10000) ∧
    (0 ≤ currentAnnualCO2 mode m d ∧ currentAnnualCO2 mode m d ≤ 10836 / 1000) ∧
    (0 ≤ option2HoursGained m ∧ option2HoursGained m ≤ 400) := by
  have hm0 : (0 : ℚ) ≤ m := le_trans (by norm_num) hm1
  have hd0 : (0 : ℚ) ≤ d := le_trans (by norm_num) hd1
  have hmd0 : (0 : ℚ) ≤ m * d := mul_nonneg hm0 hd0
  have hmd : m * d ≤ 840 := by nlinarith
  refine ⟨⟨?_, ?_⟩, ⟨?_, ?_⟩, ⟨?_, ?_⟩, ⟨?_, ?_⟩⟩
  · unfold userAnnualHours; positivity
  · unfold userAnnualHours; rw [div_le_iff (by norm_num)]; linarith
  · unfold userAnnualCO2; positivity
  · unfold userAnnualCO2
    rw [div_le_div_iff (by norm_num) (by norm_num)]
    nlinarith
  · unfold currentAnnualCO2 annualMiles dailyMiles commuteDistance AVG_SPEED_MPH
    cases mode <;> simp only [EMISSIONS_PER_MODE] <;> positivity
  · unfold currentAnnualCO2 annualMiles dailyMiles commuteDistance AVG_SPEED_MPH
    cases mode <;> simp only [EMISSIONS_PER_MODE] <;>
      rw [div_le_div_iff (by norm_num) (by norm_num)] <;> nlinarith
  · unfold option2HoursGained; positivity
  · unfold option2HoursGained; rw [div_le_iff (by norm_num)]; linarith

/-- Witness for C1: the bounds hold at the concrete input of a 27-minute
drive-alone commute five days a week. -/
theorem calculators_nonneg_and_finite_witness :
    (0 ≤ userAnnualHours 27 ∧ userAnnualHours 27 ≤ 1000) ∧
    (0 ≤ userAnnualCO2 27 ∧ userAnnualCO2 27 ≤ 106644 / 10000) ∧
    (0 ≤ currentAnnualCO2 CommuteMode.drive_alone 27 5 ∧
      currentAnnualCO2 CommuteMode.drive_alone 27 5 ≤ 10836 / 1000) ∧
    (0 ≤ option2HoursGained 27 ∧ option2HoursGained 27 ≤ 400) :=
  calculators_nonneg_and_finite 27 5 CommuteMode.drive_alone
    (by norm_num) (by norm_num) (by norm_num) (by norm_num)

/-- Helper: a scroll event is a no-op while the `scrolling` flag is set
(the first line of `handleScroll` returns immediately). -/
theorem handleScroll_of_scrolling (elems : List (Option ChapterSection))
    (scrollY innerHeight : ℚ) (st : NavState) (h : st.scrolling = true) :
    handleScroll elems scrollY innerHeight st = st := by
  simp [handleScroll, h]

/-- Helper: a whole burst of scroll events is a no-op while the `scrolling`
flag is set. -/
theorem runScrollEvents_of_scrolling (elems : List (Option ChapterSection))
    (events : List (ℚ × ℚ)) (st : NavState) (h : st.scrolling = true) :
    runScrollEvents elems events st = st := by
  induction events with
  | nil => rfl
  | cons e rest ih =>
      show runScrollEvents elems rest (handleScroll elems e.1 e.2 st) = st
      rw [handleScroll_of_scrolling elems e.1 e.2 st h, ih]

/-- C3: from the moment `scrollToChapter` begins on a bound section until the
1-second timeout fires, the `scrolling` flag is set and the chapter index
is untouched: the navigation itself does not move the index, and every
scroll event arriving before `scrollTimeoutElapsed` leaves the whole
state — in particular the shared current-chapter index — unchanged. -/
theorem programmatic_scroll_suppresses_updates
    (elems : List (Option ChapterSection)) (index : ℕ) (st : NavState)
    (events : List (ℚ × ℚ))
    (hbound : (elems.getD index none).isSome = true) :
    (scrollToChapter elems index st).scrolling = true ∧
    (scrollToChapter elems index st).currentChapter = st.currentChapter ∧
    runScrollEvents elems events (scrollToChapter elems index st) =
      scrollToChapter elems index st := by
  obtain ⟨s, hs⟩ := Option.isSome_iff_exists.mp hbound
  have h1 : (scrollToChapter elems index st).scrolling = true := by
    unfold scrollToChapter
    rw [hs]
  have h2 : (scrollToChapter elems index st).currentChapter = st.currentChapter := by
    unfold scrollToChapter
    rw [hs]
  exact ⟨h1, h2, runScrollEvents_of_scrolling elems events _ h1⟩

/-- Witness for C3: on a page with one bound section, a programmatic
navigation to it followed by two mid-animation scroll events leaves the
state exactly as it was right after the navigation began. -/
theorem programmatic_scroll_suppresses_updates_witness :
    (scrollToChapter [some ⟨0, 1000⟩] 0
        { scrolling := false, currentChapter := 1, scrollRequests := [] }).scrolling = true ∧
    (scrollToChapter [some ⟨0, 1000⟩] 0
        { scrolling := false, currentChapter := 1, scrollRequests := [] }).currentChapter = 1 ∧
    runScrollEvents [some ⟨0, 1000⟩] [(0, 600), (300, 600)]
        (scrollToChapter [some ⟨0, 1000⟩] 0
          { scrolling := false, currentChapter := 1, scrollRequests := [] }) =
      scrollToChapter [some ⟨0, 1000⟩] 0
        { scrolling := false, currentChapter := 1, scrollRequests := [] } :=
  programmatic_scroll_suppresses_updates [some ⟨0, 1000⟩] 0
    { scrolling := false, currentChapter := 1, scrollRequests := [] }
    [(0, 600), (300, 600)] rfl

/-- C9: the navigation menu lists ten chapters while the page binds only six
section elements, and for every index whose element is not bound —
in particular indices 6 through 9 — `scrollToChapter` is a silent no-op:
the state is returned untouched, so no scroll request is issued and the
`scrolling` flag keeps its value. -/
theorem scrollToChapter_unbound_noop :
    navChapters.length = 10 ∧
    ∀ (elems : List (Option ChapterSection)) (index : ℕ) (st : NavState),
      elems.getD index none = none → scrollToChapter elems index st = st := by
  refine ⟨rfl, fun elems index st h => ?_⟩
  unfold scrollToChapter
  rw [h]

/-- Witness for C9: on the six-section page (all six bound), index 6 — the
0-based target of the seventh menu entry — is past the array, and the
call changes nothing. -/
theorem scrollToChapter_unbound_noop_witness :
    scrollToChapter
      [some ⟨0, 1000⟩, some ⟨1000, 1000⟩, some ⟨2000, 1000⟩,
       some ⟨3000, 1000⟩, some ⟨4000, 1000⟩, some ⟨5000, 1000⟩] 6
      { scrolling := false, currentChapter := 3, scrollRequests := [] } =
      { scrolling := false, currentChapter := 3, scrollRequests := [] } :=
  scrollToChapter_unbound_noop.2
    [some ⟨0, 1000⟩, some ⟨1000, 1000⟩, some ⟨2000, 1000⟩,
     some ⟨3000, 1000⟩, some ⟨4000, 1000⟩, some ⟨5000, 1000⟩] 6
    { scrolling := false, currentChapter := 3, scrollRequests := [] } rfl

/-- Helper: the first-match loop of `handleScroll` returns the 1-based index
(offset by the accumulator `k`) of the unique bound section containing
the midpoint.  Uniqueness makes the first match the unique match. -/
theorem findChapter_of_unique (pos : ℚ) :
    ∀ (elems : List (Option ChapterSection)) (k current i : ℕ) (s : ChapterSection),
      elems[i]? = some (some s) →
      containsMidpoint s pos →
      (∀ j t, elems[j]? = some (some t) → containsMidpoint t pos → j = i) →
      findChapter elems pos k current = k + i + 1 := by
  intro elems
  induction elems with
  | nil =>
      intro k current i s hi _ _
      simp at hi
  | cons e rest ih =>
      intro k current i s hi hc hu
      cases i with
      | zero =>
          rw [List.getElem?_cons_zero] at hi
          injection hi with hi
          subst hi
          show findChapter (some s :: rest) pos k current = k + 0 + 1
          simp only [findChapter]
          rw [if_pos hc]
      | succ n =>
          rw [List.getElem?_cons_succ] at hi
          have hu' : ∀ j t, rest[j]? = some (some t) → containsMidpoint t pos → j = n := by
            intro j t hj hcj
            have := hu (j + 1) t (by rw [List.getElem?_cons_succ]; exact hj) hcj
            omega
          cases e with
          | none =>
              show findChapter (none :: rest) pos k current = k + (n + 1) + 1
              simp only [findChapter]
              rw [ih (k + 1) current n s hi hc hu']
              omega
          | some t =>
              have hnc : ¬ containsMidpoint t pos := by
                intro hct
                have := hu 0 t (by rw [List.getElem?_cons_zero]) hct
                omega
              show findChapter (some t :: rest) pos k current = k + (n + 1) + 1
              simp only [findChapter]
              rw [if_neg hnc, ih (k + 1) current n s hi hc hu']
              omega

/-- C2: when the scroll handler runs in the idle state and exactly one bound
section has a half-open interval [elementTop, elementTop + height) contains
the viewport midpoint scrollY + innerHeight / 2, the handler sets the
shared current-chapter index to the 1-based position of that section.  The
witness instantiates the concrete layout [0,1000), [1000,2000),
[2000,3000) with midpoint 1500 and obtains index 2. -/
theorem handleScroll_sets_unique_section
    (chapterElements : List (Option ChapterSection)) (scrollY innerHeight : ℚ)
    (st : NavState) (i : ℕ) (s : ChapterSection)
    (hidle : st.scrolling = false)
    (hi : chapterElements[i]? = some (some s))
    (hc : containsMidpoint s (scrollY + innerHeight / 2))
    (hu : ∀ j t, chapterElements[j]? = some (some t) →
      containsMidpoint t (scrollY + innerHeight / 2) → j = i) :
    (handleScroll chapterElements scrollY innerHeight st).currentChapter = i + 1 := by
  have hfind := findChapter_of_unique (scrollY + innerHeight / 2) chapterElements
    0 st.currentChapter i s hi hc hu
  simp only [handleScroll, hidle, Bool.false_eq_true, if_false]
  rw [hfind]
  omega

/-- Witness for C2: with sections at [0,1000), [1000,2000), [2000,3000) and
scrollY = 1100, innerHeight = 800 (midpoint 1500), the handler sets the
index to 2. -/
theorem handleScroll_sets_unique_section_witness :
    (handleScroll [some ⟨0, 1000⟩, some ⟨1000, 1000⟩, some ⟨2000, 1000⟩] 1100 800
      { scrolling := false, currentChapter := 5, scrollRequests := [] }).currentChapter = 2 := by
  apply handleScroll_sets_unique_section
    [some ⟨0, 1000⟩, some ⟨1000, 1000⟩, some ⟨2000, 1000⟩] 1100 800
    { scrolling := false, currentChapter := 5, scrollRequests := [] } 1 ⟨1000, 1000⟩
    rfl rfl (by constructor <;> norm_num)
  intro j t hj hcj
  cases j with
  | zero =>
      simp only [List.getElem?_cons_zero, Option.some.injEq] at hj
      subst hj
      have h2 := hcj.2
      norm_num [ChapterSection.elementTop, ChapterSection.height] at h2
  | succ j =>
      cases j with
      | zero => rfl
      | succ j =>
          cases j with
          | zero =>
              simp only [List.getElem?_cons_succ, List.getElem?_cons_zero,
                Option.some.injEq] at hj
              subst hj
              have h1 := hcj.1
              norm_num [ChapterSection.elementTop] at h1
          | succ j =>
              simp only [List.getElem?_cons_succ, List.getElem?_nil] at hj
              exact absurd hj (by simp)

end Commute
